import Mathlib

/-!
Verification of the best-model selector in `h2o-py/h2o/automl/_base.py`
(`H2OAutoMLBaseMixin.get_best_model` and its inner helper `_best`).

The leaderboard is modelled as a snapshot table: a list of column names
(original casing) and a list of rows, each row holding a `model_id` string
and the metric cells keyed by the original-case column names.  Metric
values are exact rationals given as numerator/denominator pairs (`Val`).
The remote collaborators (`H2OFrame.sort`, `H2OFrame.grep`,
`h2o.get_model`) are not part of the translated file, so they are
modelled from the spec, as marked on each definition.  Python string
primitives (`str.lower`, lexicographic `<`, prefix test) are realized
over the character lists of Lean strings; on the ASCII identifiers and
column names involved they agree with Python's code-point semantics.
-/

namespace H2OAutoML

/-- A metric cell value: the exact rational `num / den` (all leaderboards
considered have positive denominators).  Ordering is by cross
multiplication. -/
structure Val where
  num : Int
  den : Nat
deriving Repr, DecidableEq

instance : Inhabited Val := ⟨⟨0, 1⟩⟩

/-- Strict order on metric values: `a.num / a.den < b.num / b.den` by
cross multiplication. -/
def Val.lt (a b : Val) : Prop :=
  a.num * (b.den : Int) < b.num * (a.den : Int)

instance (a b : Val) : Decidable (Val.lt a b) :=
  inferInstanceAs (Decidable (_ < _))

/-- Python `str.lower`, realized over the character list. -/
def strToLower (s : String) : String :=
  String.mk (s.data.map Char.toLower)

/-- Python `str.startswith` / an anchored `^prefix` regular expression:
`strStartsWith s p` is true when `p` is a prefix of `s`. -/
def strStartsWith (s p : String) : Bool :=
  p.data.isPrefixOf s.data

/-- Lexicographic code-point order on character lists, Python's `<` on
strings. -/
def charListLt : List Char → List Char → Bool
  | _, [] => false
  | [], _ :: _ => true
  | a :: as, b :: bs =>
    if a < b then true else if b < a then false else charListLt as bs

/-- One leaderboard row: a `model_id` string plus the metric cells, keyed
by the original-case column names. -/
structure Row where
  model_id : String
  metrics : List (String × Val)
deriving Repr, DecidableEq, Inhabited

/-- Cell access by column name (indexed cell access of the table). -/
def Row.cell (r : Row) (col : String) : Val :=
  (r.metrics.lookup col).getD default

/-- A leaderboard snapshot: ordered column names plus the rows. -/
structure Leaderboard where
  columns : List String
  rows : List Row
deriving Repr, DecidableEq

/-- The state visible to `get_best_model` on a frozen snapshot: the
leaderboard returned by `self.leaderboard`, and the leader model's
`model_category` (`none` when there is no leader, in which case reading
`self.leader._model_json` fails). -/
structure AutoMLState where
  leaderboard : Leaderboard
  leaderCategory : Option String
deriving Repr, DecidableEq

/-- Python exception outcomes of `get_best_model`: `valueError` models
`H2OValueError`, `keyError` the `KeyError` raised by a failed dict
lookup, and `attrError` the `AttributeError` from dereferencing a missing
leader. -/
inductive PyError where
  | valueError (msg : String)
  | keyError (key : String)
  | attrError (msg : String)
deriving Repr, DecidableEq

/-- Comparison used for sorting rows by a column: `rowLt col asc a b` is
true when `a` must come strictly before `b` in the requested order. -/
def rowLt (col : String) (ascending : Bool) (a b : Row) : Bool :=
  if ascending then decide (Val.lt (a.cell col) (b.cell col))
  else decide (Val.lt (b.cell col) (a.cell col))

/-- Insert a row in front of the first element not strictly before it. -/
def insertRow (col : String) (ascending : Bool) (r : Row) :
    List Row → List Row
  | [] => [r]
  | x :: xs =>
    if rowLt col ascending x r then x :: insertRow col ascending r xs
    else r :: x :: xs

/-- Modelled from the spec: `H2OFrame.sort(by=..., ascending=...)` is not
part of the translated file; per the spec it is a stable sort by the
given column in the given direction (ties broken by pre-existing row
order).  Implemented as a stable insertion sort. -/
def sortRows (col : String) (ascending : Bool) : List Row → List Row
  | [] => []
  | r :: rs => insertRow col ascending r (sortRows col ascending rs)

/-- Modelled from the spec: the regular-expression matcher behind
`H2OFrame.grep` is not part of the translated file.  Only the eight
pattern strings of the `patterns` dict can reach it; per the spec each is
an anchored identifier-prefix rule, with `^(?!StackedEnsemble_)` matching
any identifier NOT prefixed `StackedEnsemble_` and `^(DRF|XRT)_` matching
either the `DRF_` or the `XRT_` prefix. -/
def regexMatches (pat s : String) : Bool :=
  if pat = "^(?!StackedEnsemble_)" then !(strStartsWith s "StackedEnsemble_")
  else if pat = "^DeepLearning_" then strStartsWith s "DeepLearning_"
  else if pat = "^(DRF|XRT)_" then strStartsWith s "DRF_" || strStartsWith s "XRT_"
  else if pat = "^GBM_" then strStartsWith s "GBM_"
  else if pat = "^GLM_" then strStartsWith s "GLM_"
  else if pat = "^StackedEnsemble_" then strStartsWith s "StackedEnsemble_"
  else if pat = "^XGBoost_" then strStartsWith s "XGBoost_"
  else if pat = "^XRT_" then strStartsWith s "XRT_"
  else false

/-- Index-tracking helper for `grepIndices`. -/
def grepAux (pat : String) : List String → Nat → List Nat
  | [], _ => []
  | s :: ss, i =>
    if regexMatches pat s then i :: grepAux pat ss (i + 1)
    else grepAux pat ss (i + 1)

/-- Modelled from the spec: `H2OFrame.grep(pattern)` on a string column
is not part of the translated file; it returns the (0-based, increasing)
indices of the elements matching the pattern. -/
def grepIndices (pat : String) (ids : List String) : List Nat :=
  grepAux pat ids 0

/-- The `patterns` dict of `get_best_model`, in source order: family tag
to regular-expression string. -/
def patterns : List (String × String) :=
  [("base_model", "^(?!StackedEnsemble_)"),
   ("deep_learning", "^DeepLearning_"),
   ("drf", "^(DRF|XRT)_"),
   ("gbm", "^GBM_"),
   ("glm", "^GLM_"),
   ("stacked_ensemble", "^StackedEnsemble_"),
   ("xgboost", "^XGBoost_"),
   ("xrt", "^XRT_")]

/-- The `higher_is_better` list of `get_best_model`. -/
def higher_is_better : List String := ["auc", "aucpr"]

/-- Insertion step of `sortStrings`. -/
def insertStr (s : String) : List String → List String
  | [] => [s]
  | x :: xs =>
    if charListLt x.data s.data then x :: insertStr s xs else s :: x :: xs

/-- Python's `sorted` on a list of strings (lexicographic by code point),
used for the family error message. -/
def sortStrings : List String → List String
  | [] => []
  | s :: ss => insertStr s (sortStrings ss)

/-- The `criteria` dict comprehension
`{col.lower(): col for col in self.leaderboard.columns}`: lowercase name
to original-case name.  Reversed so that `List.lookup` (first match)
realizes Python's dict semantics where a later duplicate key wins. -/
def criteriaDict (cols : List String) : List (String × String) :=
  (cols.map (fun col => (strToLower col, col))).reverse

/-- The default-criterion resolution of `get_best_model`: an explicit
criterion is kept; otherwise the leader model's `model_category` picks
the default (`Regression` gives `mean_residual_deviance`, `Binomial`
gives `auc`, anything else gives `mean_per_class_error`).  With no
leader, `self.leader._model_json` raises. -/
def resolveCriterion (st : AutoMLState) (criterion : Option String) :
    Except PyError String :=
  match criterion with
  | some c => Except.ok c
  | none =>
    match st.leaderCategory with
    | none => Except.error (PyError.attrError "NoneType has no _model_json")
    | some model_category =>
      if model_category = "Regression" then Except.ok "mean_residual_deviance"
      else if model_category = "Binomial" then Except.ok "auc"
      else Except.ok "mean_per_class_error"

/-- The criterion-processing steps of `get_best_model`: default
resolution, the membership check
`if criterion.lower() not in criteria.keys()` (raising `H2OValueError`),
then the canonicalizing dict lookup `criterion = criteria[criterion]`,
which in the source misses `.lower()` and so raises `KeyError` whenever
the supplied criterion is not itself a lowercase column name. -/
def criterionStage (st : AutoMLState) (criterion : Option String) :
    Except PyError String :=
  match resolveCriterion st criterion with
  | Except.error e => Except.error e
  | Except.ok c =>
    if ((criteriaDict st.leaderboard.columns).lookup (strToLower c)).isNone then
      Except.error (PyError.valueError
        ("Criterion \"" ++ c ++ "\" is not present in the leaderboard!"))
    else
      match (criteriaDict st.leaderboard.columns).lookup c with
      | none => Except.error (PyError.keyError c)
      | some c2 => Except.ok c2

/-- The inner helper `_best`: sort the leaderboard by the criterion in
the requested direction, grep the sorted `model_id` column for the
pattern, return `none` when nothing matches, and otherwise read the
`model_id` cell of `self.leaderboard` — the UNSORTED snapshot, exactly as
in the source — at the first matched index.  `h2o.get_model` is modelled
as returning the identifier it resolves. -/
def bestModelId (leaderboard : Leaderboard) (pat : String)
    (criterion : String) (ascending : Bool) : Option String :=
  match grepIndices pat
      ((sortRows criterion ascending leaderboard.rows).map Row.model_id) with
  | [] => none
  | i :: _ => some ((leaderboard.rows.getD i default).model_id)

/-- `get_best_model(algorithm, criterion)`: criterion processing, then
the family check `if algorithm.lower() not in patterns.keys()` (raising
`H2OValueError` whose message joins the sorted family tags), then `_best`
with `ascending = criterion.lower() not in higher_is_better`. -/
def getBestModel (st : AutoMLState) (algorithm : String)
    (criterion : Option String) : Except PyError (Option String) :=
  match criterionStage st criterion with
  | Except.error e => Except.error e
  | Except.ok c2 =>
    match patterns.lookup (strToLower algorithm) with
    | none =>
      Except.error (PyError.valueError
        ("Incorrect model_type specified \"" ++ algorithm ++
         "\". Has to be one of \"" ++
         String.intercalate "\", \"" (sortStrings (patterns.map Prod.fst)) ++
         "\""))
    | some pat =>
      Except.ok (bestModelId st.leaderboard pat c2
        (!(higher_is_better.contains (strToLower c2))))

/-! ### Helper lemmas -/

/-- An association-list lookup misses exactly when the key is absent from
the key column. -/
lemma lookup_eq_none_iff (k : String) (ps : List (String × String)) :
    ps.lookup k = none ↔ k ∉ ps.map Prod.fst := by
  induction ps with
  | nil => simp [List.lookup]
  | cons p ps ih =>
    obtain ⟨a, b⟩ := p
    by_cases h : k = a
    · subst h
      simp [List.lookup]
    · have hba : (k == a) = false := beq_eq_false_iff_ne.mpr h
      simp [List.lookup, hba, h, ih]

/-- Membership is preserved by the insertion step of the sort. -/
lemma mem_insertRow (col : String) (asc : Bool) (r x : Row) (l : List Row) :
    x ∈ insertRow col asc r l ↔ x = r ∨ x ∈ l := by
  induction l with
  | nil => simp [insertRow]
  | cons y ys ih =>
    cases hlt : rowLt col asc y r with
    | false =>
      simp [insertRow, hlt]
    | true =>
      simp [insertRow, hlt, ih]
      tauto

/-- Sorting permutes the rows: membership is unchanged. -/
lemma mem_sortRows (col : String) (asc : Bool) (x : Row) (l : List Row) :
    x ∈ sortRows col asc l ↔ x ∈ l := by
  induction l with
  | nil => simp [sortRows]
  | cons y ys ih =>
    simp [sortRows, mem_insertRow, ih]

/-- When no element matches the pattern, the grep helper yields no index,
whatever the offset. -/
lemma grepAux_eq_nil (pat : String) (ids : List String) (n : Nat)
    (h : ∀ s ∈ ids, regexMatches pat s = false) : grepAux pat ids n = [] := by
  induction ids generalizing n with
  | nil => rfl
  | cons s ss ih =>
    have hs : regexMatches pat s = false := h s (by simp)
    simp only [grepAux, hs, Bool.false_eq_true, if_false]
    exact ih _ (fun x hx => h x (by simp [hx]))

/-- Two rows with equal sort keys never compare strictly, in either
direction. -/
lemma rowLt_eq_false_of_cell_eq (col : String) (asc : Bool) (x r : Row)
    (h : x.cell col = r.cell col) : rowLt col asc x r = false := by
  cases asc <;> simp [rowLt, h, Val.lt]

/-- A row strictly preceding another in the sort order has a different
key. -/
lemma cell_ne_of_rowLt (col : String) (asc : Bool) (x r : Row) (v : Val)
    (hlt : rowLt col asc x r = true) (hv : r.cell col = v) :
    ¬(x.cell col = v) := by
  intro hx
  rw [rowLt_eq_false_of_cell_eq col asc x r (hx.trans hv.symm)] at hlt
  exact Bool.false_ne_true hlt

/-- Inserting a row either prepends it to the key-class it belongs to or
leaves every key-class untouched. -/
lemma filter_insertRow (col : String) (asc : Bool) (v : Val) (r : Row)
    (l : List Row) :
    (insertRow col asc r l).filter (fun x => decide (x.cell col = v)) =
      if r.cell col = v
      then r :: l.filter (fun x => decide (x.cell col = v))
      else l.filter (fun x => decide (x.cell col = v)) := by
  induction l with
  | nil =>
    by_cases h : r.cell col = v <;> simp [insertRow, h]
  | cons x xs ih =>
    cases hlt : rowLt col asc x r with
    | false =>
      by_cases h : r.cell col = v <;>
        simp [insertRow, hlt, List.filter_cons, h]
    | true =>
      by_cases h : r.cell col = v
      · have hx : ¬(x.cell col = v) := cell_ne_of_rowLt col asc x r v hlt h
        simp [insertRow, hlt, List.filter_cons, hx, ih, h]
      · by_cases hx : x.cell col = v <;>
          simp [insertRow, hlt, List.filter_cons, hx, ih, h]

/-- Stability of the modelled sort: within any class of rows carrying the
same value in the sort column, the sorted order coincides with the
pre-existing row order. -/
lemma filter_sortRows (col : String) (asc : Bool) (v : Val) (l : List Row) :
    (sortRows col asc l).filter (fun x => decide (x.cell col = v)) =
      l.filter (fun x => decide (x.cell col = v)) := by
  induction l with
  | nil => rfl
  | cons r rs ih =>
    rw [sortRows, filter_insertRow]
    by_cases h : r.cell col = v <;> simp [List.filter_cons, h, ih]

/-! ### Claim theorems -/

/-- Claim C1: the spec says that with criterion `auc` (higher is better)
over rows with auc values [0.7, 0.9, 0.5] all matching the family, the
row with 0.9 (`GBM_2`) is selected, and with criterion `mse` over values
[0.7, 0.9, 0.5] the row with 0.5 (`GBM_3`) is selected.  The code instead
indexes the UNSORTED leaderboard with the match position taken from the
sorted frame, returning `GBM_1` (0.7) in both cases. -/
theorem C1_selects_wrong_row :
    getBestModel ⟨⟨["model_id", "auc"],
        [⟨"GBM_1", [("auc", ⟨7, 10⟩)]⟩, ⟨"GBM_2", [("auc", ⟨9, 10⟩)]⟩,
         ⟨"GBM_3", [("auc", ⟨5, 10⟩)]⟩]⟩, some "Binomial"⟩
      "base_model" (some "auc") = Except.ok (some "GBM_1") ∧
    getBestModel ⟨⟨["model_id", "mse"],
        [⟨"GBM_1", [("mse", ⟨7, 10⟩)]⟩, ⟨"GBM_2", [("mse", ⟨9, 10⟩)]⟩,
         ⟨"GBM_3", [("mse", ⟨5, 10⟩)]⟩]⟩, some "Regression"⟩
      "base_model" (some "mse") = Except.ok (some "GBM_1") :=
  ⟨rfl, rfl⟩

/-- Claim C2: the spec says `criterion="AUC"` and `criterion="auc"` are
equivalent and neither call raises.  The code validates the lowercase
form but then looks up `criteria[criterion]` without lowering, so the
uppercase spelling raises `KeyError` while the lowercase one succeeds. -/
theorem C2_uppercase_criterion_keyerror :
    getBestModel ⟨⟨["model_id", "auc"],
        [⟨"GBM_1", [("auc", ⟨8, 10⟩)]⟩]⟩, some "Binomial"⟩
      "gbm" (some "AUC") = Except.error (PyError.keyError "AUC") ∧
    getBestModel ⟨⟨["model_id", "auc"],
        [⟨"GBM_1", [("auc", ⟨8, 10⟩)]⟩]⟩, some "Binomial"⟩
      "gbm" (some "auc") = Except.ok (some "GBM_1") :=
  ⟨rfl, rfl⟩

/-- Claim C3: whenever the effective criterion (explicitly supplied or
resolved from the leader category) has a lowercase form absent from the
lowercase leaderboard column names, `get_best_model` fails with the
`H2OValueError` naming that criterion; defaults are not exempt. -/
theorem C3_unknown_criterion_fails (st : AutoMLState) (alg : String)
    (copt : Option String) (c : String)
    (hres : resolveCriterion st copt = Except.ok c)
    (hmem : strToLower c ∉ st.leaderboard.columns.map strToLower) :
    getBestModel st alg copt =
      Except.error (PyError.valueError
        ("Criterion \"" ++ c ++ "\" is not present in the leaderboard!")) := by
  have hkeys : (criteriaDict st.leaderboard.columns).lookup (strToLower c)
      = none := by
    rw [lookup_eq_none_iff]
    simpa [criteriaDict, Function.comp] using hmem
  simp [getBestModel, criterionStage, hres, hkeys]

/-- Witness for C3, on the default path: leader category `Binomial`
resolves to default criterion `auc`, which a leaderboard with only a
`model_id` column lacks, so the call fails naming `auc`. -/
theorem C3_witness :
    resolveCriterion ⟨⟨["model_id"], []⟩, some "Binomial"⟩ none
        = Except.ok "auc" ∧
    strToLower "auc" ∉
      (AutoMLState.mk ⟨["model_id"], []⟩
        (some "Binomial")).leaderboard.columns.map strToLower ∧
    getBestModel ⟨⟨["model_id"], []⟩, some "Binomial"⟩ "gbm" none =
      Except.error (PyError.valueError
        "Criterion \"auc\" is not present in the leaderboard!") :=
  ⟨rfl, by decide, C3_unknown_criterion_fails _ "gbm" none "auc" rfl (by decide)⟩

/-- Claim C4: given a criterion that passes the criterion-processing
stage, any family whose lowercase form is not one of the eight known tags
makes `get_best_model` fail with the `H2OValueError` listing all eight
valid tags sorted alphabetically. -/
theorem C4_unknown_family_fails (st : AutoMLState) (alg : String)
    (copt : Option String) (c2 : String)
    (h1 : criterionStage st copt = Except.ok c2)
    (h2 : strToLower alg ∉ patterns.map Prod.fst) :
    getBestModel st alg copt =
      Except.error (PyError.valueError
        ("Incorrect model_type specified \"" ++ alg ++
         "\". Has to be one of \"" ++
         String.intercalate "\", \"" (sortStrings (patterns.map Prod.fst)) ++
         "\"")) ∧
    sortStrings (patterns.map Prod.fst) =
      ["base_model", "deep_learning", "drf", "gbm", "glm",
       "stacked_ensemble", "xgboost", "xrt"] := by
  have hl : patterns.lookup (strToLower alg) = none :=
    (lookup_eq_none_iff _ _).mpr h2
  exact ⟨by simp [getBestModel, h1, hl], rfl⟩

/-- Witness for C4: family `foo` with a valid criterion `auc` fails with
the message listing the eight tags alphabetically. -/
theorem C4_witness :
    criterionStage ⟨⟨["model_id", "auc"], []⟩, none⟩ (some "auc")
        = Except.ok "auc" ∧
    strToLower "foo" ∉ patterns.map Prod.fst ∧
    (getBestModel ⟨⟨["model_id", "auc"], []⟩, none⟩ "foo" (some "auc") =
      Except.error (PyError.valueError
        ("Incorrect model_type specified \"foo\". Has to be one of " ++
         "\"base_model\", \"deep_learning\", \"drf\", \"gbm\", \"glm\", " ++
         "\"stacked_ensemble\", \"xgboost\", \"xrt\"")) ∧
     sortStrings (patterns.map Prod.fst) =
       ["base_model", "deep_learning", "drf", "gbm", "glm",
        "stacked_ensemble", "xgboost", "xrt"]) :=
  ⟨rfl, by decide, C4_unknown_family_fails _ "foo" (some "auc") "auc" rfl (by decide)⟩

/-- Claim C5: for a valid family and a criterion surviving the criterion
stage, if no row's model identifier matches the family's pattern — the
empty leaderboard included — the call returns the sentinel `none` and
raises no error. -/
theorem C5_no_family_match_returns_none (st : AutoMLState) (alg : String)
    (copt : Option String) (c2 pat : String)
    (h1 : criterionStage st copt = Except.ok c2)
    (h2 : patterns.lookup (strToLower alg) = some pat)
    (h3 : ∀ r ∈ st.leaderboard.rows, regexMatches pat r.model_id = false) :
    getBestModel st alg copt = Except.ok none := by
  have hgrep : grepIndices pat
      ((sortRows c2 (!(higher_is_better.contains (strToLower c2)))
        st.leaderboard.rows).map Row.model_id) = [] := by
    apply grepAux_eq_nil
    intro s hs
    rcases List.mem_map.mp hs with ⟨r, hr, rfl⟩
    exact h3 r ((mem_sortRows _ _ r _).mp hr)
  simp only [getBestModel, h1, h2, bestModelId]
  rw [hgrep]

/-- Witness for C5: the empty leaderboard with family `gbm` and explicit
criterion `auc` gives the sentinel `none`. -/
theorem C5_witness :
    criterionStage ⟨⟨["model_id", "auc"], []⟩, none⟩ (some "auc")
        = Except.ok "auc" ∧
    patterns.lookup (strToLower "gbm") = some "^GBM_" ∧
    getBestModel ⟨⟨["model_id", "auc"], []⟩, none⟩ "gbm" (some "auc") =
      Except.ok none :=
  ⟨rfl, rfl, C5_no_family_match_returns_none _ "gbm" (some "auc") "auc" "^GBM_"
    rfl rfl (by intro r hr; simp at hr)⟩

/-- Claim C6: with the criterion omitted, the leader category resolves
the default — `Regression` to `mean_residual_deviance`, `Binomial` to
`auc`, anything else to `mean_per_class_error` — and the call then
behaves exactly as if that criterion had been supplied explicitly. -/
theorem C6_default_criterion (st : AutoMLState) (alg : String) (cat : String)
    (h : st.leaderCategory = some cat) :
    getBestModel st alg none =
      getBestModel st alg (some
        (if cat = "Regression" then "mean_residual_deviance"
         else if cat = "Binomial" then "auc"
         else "mean_per_class_error")) := by
  by_cases h1 : cat = "Regression"
  · simp [getBestModel, criterionStage, resolveCriterion, h, h1]
  · by_cases h2 : cat = "Binomial"
    · simp [getBestModel, criterionStage, resolveCriterion, h, h1, h2]
    · simp [getBestModel, criterionStage, resolveCriterion, h, h1, h2]

/-- Witness for C6: a `Binomial` leader makes the bare call equal to the
call with the default criterion spelled out. -/
theorem C6_witness :
    (AutoMLState.mk ⟨["model_id", "auc"], [⟨"GBM_1", [("auc", ⟨8, 10⟩)]⟩]⟩
        (some "Binomial")).leaderCategory = some "Binomial" ∧
    getBestModel ⟨⟨["model_id", "auc"], [⟨"GBM_1", [("auc", ⟨8, 10⟩)]⟩]⟩,
        some "Binomial"⟩ "gbm" none =
      getBestModel ⟨⟨["model_id", "auc"], [⟨"GBM_1", [("auc", ⟨8, 10⟩)]⟩]⟩,
          some "Binomial"⟩ "gbm"
        (some (if "Binomial" = "Regression" then "mean_residual_deviance"
          else if "Binomial" = "Binomial" then "auc"
          else "mean_per_class_error")) :=
  ⟨rfl, C6_default_criterion _ "gbm" "Binomial" rfl⟩

/-- Claim C7: the spec says family `drf` must return `XRT_1` when it
ranks best, and family `xrt` must never return `DRF_1`.  On the
leaderboard [`DRF_1` (auc 0.5), `XRT_1` (auc 0.9)] the code returns
`DRF_1` for BOTH requests, because the first-match position in the
sorted frame is used as an index into the unsorted leaderboard. -/
theorem C7_family_pattern_bug :
    getBestModel ⟨⟨["model_id", "auc"],
        [⟨"DRF_1", [("auc", ⟨5, 10⟩)]⟩, ⟨"XRT_1", [("auc", ⟨9, 10⟩)]⟩]⟩,
        some "Binomial"⟩ "xrt" (some "auc") = Except.ok (some "DRF_1") ∧
    getBestModel ⟨⟨["model_id", "auc"],
        [⟨"DRF_1", [("auc", ⟨5, 10⟩)]⟩, ⟨"XRT_1", [("auc", ⟨9, 10⟩)]⟩]⟩,
        some "Binomial"⟩ "drf" (some "auc") = Except.ok (some "DRF_1") :=
  ⟨rfl, rfl⟩

/-- Claim C8: the family argument is case-insensitive — two spellings of
the same valid family tag give the same result on any snapshot and
criterion. -/
theorem C8_family_case_insensitive (st : AutoMLState) (a1 a2 : String)
    (copt : Option String)
    (hcase : strToLower a1 = strToLower a2)
    (hvalid : strToLower a1 ∈ patterns.map Prod.fst) :
    getBestModel st a1 copt = getBestModel st a2 copt := by
  cases hcs : criterionStage st copt with
  | error e => simp [getBestModel, hcs]
  | ok c2 =>
    have hne : patterns.lookup (strToLower a1) ≠ none := by
      rw [Ne, lookup_eq_none_iff]
      simpa using hvalid
    rcases Option.ne_none_iff_exists.mp hne with ⟨pat, hpat⟩
    simp [getBestModel, hcs, ← hcase, ← hpat]

/-- Witness for C8: `get_best_model("GBM")` equals
`get_best_model("gbm")` on a mixed leaderboard. -/
theorem C8_witness :
    strToLower "GBM" = strToLower "gbm" ∧
    strToLower "GBM" ∈ patterns.map Prod.fst ∧
    getBestModel ⟨⟨["model_id", "auc"],
        [⟨"GBM_1", [("auc", ⟨8, 10⟩)]⟩, ⟨"XRT_1", [("auc", ⟨9, 10⟩)]⟩]⟩,
        some "Binomial"⟩ "GBM" (some "auc") =
      getBestModel ⟨⟨["model_id", "auc"],
          [⟨"GBM_1", [("auc", ⟨8, 10⟩)]⟩, ⟨"XRT_1", [("auc", ⟨9, 10⟩)]⟩]⟩,
          some "Binomial"⟩ "gbm" (some "auc") :=
  ⟨rfl, by decide, C8_family_case_insensitive _ "GBM" "gbm" (some "auc")
    rfl (by decide)⟩

/-- Claim C9: on a frozen snapshot the selection is deterministic — two
identical calls agree — and the modelled sort is stable: every class of
rows sharing a value in the sort column keeps its pre-existing order. -/
theorem C9_frozen_snapshot_deterministic :
    (∀ (st : AutoMLState) (alg : String) (copt : Option String),
      getBestModel st alg copt = getBestModel st alg copt) ∧
    (∀ (col : String) (asc : Bool) (v : Val) (l : List Row),
      (sortRows col asc l).filter (fun x => decide (x.cell col = v)) =
        l.filter (fun x => decide (x.cell col = v))) :=
  ⟨fun _ _ _ => rfl, fun col asc v l => filter_sortRows col asc v l⟩

/-- Claim C10: with an explicit criterion the leader's category metadata
is never consulted — the result is the same whatever the leader category
is, including when there is no leader at all. -/
theorem C10_explicit_criterion_ignores_leader (lb : Leaderboard)
    (cat1 cat2 : Option String) (alg c : String) :
    getBestModel ⟨lb, cat1⟩ alg (some c) =
      getBestModel ⟨lb, cat2⟩ alg (some c) := rfl

end H2OAutoML
